import Mathlib

/-!
Verification of the loan planning and ranking engine of the
`greek-finlit-agent` repository against its natural-language specification.

The Python services under `src/finlit_agent/services/` are shallowly embedded
here.  Python floats are modelled by exact rationals (`ℚ`), Python ints by
`ℤ`/`ℕ`, dictionaries with string keys by total functions on `String` with
explicit fallback, and fallible operations by `Option`.  Every definition is
translated directly from the source; definitions are executable so that each
property can be evaluated on concrete inputs.
-/

namespace FinLit

/-- Raw financial inputs (the `financial_data` dictionary).  Absent keys
default to `0` in the source; here the record is total. -/
structure FinancialData where
  monthly_income : ℚ := 0
  other_income : ℚ := 0
  monthly_expenses : ℚ := 0
  existing_loans : ℚ := 0
  loan_amount : ℚ := 0
  savings : ℚ := 0
deriving Repr, DecidableEq

/-! ### LoanInformationService -/

namespace LoanInformationService

/-- `DEFAULT_TERMS` dictionary (`loan_information_service.py`). -/
def DEFAULT_TERMS (loan_type : String) : Option ℤ :=
  if loan_type = "mortgage" then some 20
  else if loan_type = "personal" then some 5
  else if loan_type = "auto" then some 5
  else if loan_type = "student" then some 10
  else if loan_type = "business" then some 5
  else if loan_type = "unknown" then some 5
  else none

/-- `DEFAULT_INTEREST_RATES` dictionary (`loan_information_service.py`). -/
def DEFAULT_INTEREST_RATES (loan_type : String) : Option ℚ :=
  if loan_type = "mortgage" then some (3/100)
  else if loan_type = "personal" then some (7/100)
  else if loan_type = "auto" then some (5/100)
  else if loan_type = "student" then some (4/100)
  else if loan_type = "business" then some (6/100)
  else if loan_type = "unknown" then some (5/100)
  else none

/-- `get_default_term`: dictionary lookup with fallback to the "unknown" row. -/
def get_default_term (loan_type : String) : ℤ :=
  (DEFAULT_TERMS loan_type).getD ((DEFAULT_TERMS "unknown").getD 0)

/-- `get_default_interest_rate`: lookup with fallback to the "unknown" row. -/
def get_default_interest_rate (loan_type : String) : ℚ :=
  (DEFAULT_INTEREST_RATES loan_type).getD ((DEFAULT_INTEREST_RATES "unknown").getD 0)

end LoanInformationService

/-! ### FinancialCalculatorService -/

namespace FinancialCalculatorService

/-- `calculate_monthly_payment` (`financial_calculator_service.py`). -/
def calculate_monthly_payment (principal : ℚ) (annual_rate : ℚ) (years : ℤ) : ℚ :=
  if principal ≤ 0 ∨ years ≤ 0 then 0
  else if annual_rate = 0 then principal / ((years : ℚ) * 12)
  else
    let monthly_rate := annual_rate / 12
    let num_payments : ℕ := years.toNat * 12
    principal * (monthly_rate * (1 + monthly_rate) ^ num_payments) /
      ((1 + monthly_rate) ^ num_payments - 1)

/-- `calculate_total_income`. -/
def calculate_total_income (monthly_income other_income : ℚ) : ℚ :=
  monthly_income + other_income

/-- `calculate_total_expenses`. -/
def calculate_total_expenses (monthly_expenses existing_loans : ℚ) : ℚ :=
  monthly_expenses + existing_loans

/-- `calculate_disposable_income`. -/
def calculate_disposable_income (total_income total_expenses : ℚ) : ℚ :=
  total_income - total_expenses

/-- `calculate_payment_ratio`. -/
def calculate_payment_ratio (payment income : ℚ) : ℚ :=
  if income ≤ 0 then 0 else payment / income * 100

/-- Result record of `calculate_financial_metrics`. -/
structure FinancialMetricsResult where
  total_income : ℚ
  total_expenses : ℚ
  disposable_income : ℚ
  estimated_payment : ℚ
  payment_ratio : ℚ
  term_years : ℤ
  interest_rate : ℚ
deriving Repr, DecidableEq

/-- `calculate_financial_metrics` (`financial_calculator_service.py`). -/
def calculate_financial_metrics (financial_data : FinancialData)
    (loan_type : String := "personal") (term_years : Option ℤ := none) :
    FinancialMetricsResult :=
  let monthly_income := financial_data.monthly_income
  let other_income := financial_data.other_income
  let monthly_expenses := financial_data.monthly_expenses
  let existing_loans := financial_data.existing_loans
  let loan_amount := financial_data.loan_amount
  let term_years := term_years.getD (LoanInformationService.get_default_term loan_type)
  let interest_rate := LoanInformationService.get_default_interest_rate loan_type
  let total_income := calculate_total_income monthly_income other_income
  let total_expenses := calculate_total_expenses monthly_expenses existing_loans
  let disposable_income := calculate_disposable_income total_income total_expenses
  let estimated_payment := calculate_monthly_payment loan_amount interest_rate term_years
  let payment_ratio := calculate_payment_ratio estimated_payment monthly_income
  { total_income := total_income
    total_expenses := total_expenses
    disposable_income := disposable_income
    estimated_payment := estimated_payment
    payment_ratio := payment_ratio
    term_years := term_years
    interest_rate := interest_rate }

end FinancialCalculatorService

/-! ### AffordabilityService -/

namespace AffordabilityService

/-- `SAFE_PAYMENT_RATIO` threshold. -/
def safe_payment_ratio : ℚ := 30

/-- `WARNING_PAYMENT_RATIO` threshold. -/
def warning_payment_ratio : ℚ := 40

/-- `get_affordability_status` (`affordability_service.py`). -/
def get_affordability_status (payment_ratio disposable_income estimated_payment : ℚ) :
    String :=
  if disposable_income ≤ 0 ∨ payment_ratio > warning_payment_ratio then "danger"
  else if disposable_income < estimated_payment then "danger"
  else if payment_ratio > safe_payment_ratio then "warning"
  else "safe"

end AffordabilityService

/-! ## Claims C1, C4, C9 -/

/-- C1, counterexample: the claim says `calculate_financial_metrics` uses the §6
rate of `0.035` for category "mortgage"; on the code the rate used is `0.03`
(the `LoanInformationService.DEFAULT_INTEREST_RATES` table), so the claim as
stated is false at the concrete input below. -/
theorem C1_counterexample :
    (FinancialCalculatorService.calculate_financial_metrics
        { monthly_income := 2000, loan_amount := 100000 } "mortgage" none).interest_rate
      = 3/100 ∧ (3/100 : ℚ) ≠ 35/1000 := by
  constructor
  · rfl
  · norm_num

/-- C1, amended: for every loan category `calculate_financial_metrics` resolves
the annual interest rate from `LoanInformationService.DEFAULT_INTEREST_RATES`
(not the generator's §6 table); in particular for "mortgage" the rate used is
`0.03`, and for an unrecognized category it falls back to the "unknown" row's
rate of `0.05`. -/
theorem C1_metrics_rate_from_loan_information_table
    (data : FinancialData) (loan_type : String) (t : Option ℤ) :
    (FinancialCalculatorService.calculate_financial_metrics data loan_type t).interest_rate
        = LoanInformationService.get_default_interest_rate loan_type
      ∧ (FinancialCalculatorService.calculate_financial_metrics data "mortgage" t).interest_rate
        = 3/100
      ∧ (loan_type ∉ ["mortgage", "personal", "auto", "student", "business", "unknown"] →
          (FinancialCalculatorService.calculate_financial_metrics data loan_type t).interest_rate
            = 5/100) := by
  refine ⟨rfl, rfl, fun h => ?_⟩
  simp only [List.mem_cons, List.mem_singleton, not_or] at h
  obtain ⟨h1, h2, h3, h4, h5, h6, -⟩ := h
  show LoanInformationService.get_default_interest_rate loan_type = 5/100
  unfold LoanInformationService.get_default_interest_rate
    LoanInformationService.DEFAULT_INTEREST_RATES
  rw [if_neg h1, if_neg h2, if_neg h3, if_neg h4, if_neg h5, if_neg h6]
  rfl

/-- C1, witness for the amended theorem at a concrete unrecognized category. -/
theorem C1_metrics_rate_witness :
    (FinancialCalculatorService.calculate_financial_metrics
        { monthly_income := 1000 } "crypto" none).interest_rate = 5/100 :=
  (C1_metrics_rate_from_loan_information_table { monthly_income := 1000 } "crypto" none).2.2
    (by decide)

/-- C4: for every payment ratio `r`, disposable income `d` and estimated
payment `p`, `get_affordability_status` returns "danger" exactly when
`d ≤ 0 ∨ r > 40 ∨ d < p`, otherwise "warning" exactly when `r > 30`, and
otherwise "safe". -/
theorem C4_affordability_classification (r d p : ℚ) :
    AffordabilityService.get_affordability_status r d p
      = if d ≤ 0 ∨ r > 40 ∨ d < p then "danger"
        else if r > 30 then "warning" else "safe" := by
  unfold AffordabilityService.get_affordability_status
    AffordabilityService.safe_payment_ratio AffordabilityService.warning_payment_ratio
  by_cases h1 : d ≤ 0 ∨ r > 40
  · rw [if_pos h1, if_pos (by tauto)]
  · rw [if_neg h1]
    by_cases h2 : d < p
    · rw [if_pos h2, if_pos (by tauto)]
    · rw [if_neg h2, if_neg (show ¬(d ≤ 0 ∨ r > 40 ∨ d < p) by tauto)]

/-- C9: in `calculate_financial_metrics` the payment ratio divides the
estimated payment by the primary monthly income alone: whenever
`monthly_income ≤ 0` the ratio is `0` no matter how large `other_income` is,
while the disposable income in the same result does include `other_income`. -/
theorem C9_payment_ratio_uses_primary_income_only
    (data : FinancialData) (loan_type : String) (t : Option ℤ)
    (h : data.monthly_income ≤ 0) :
    (FinancialCalculatorService.calculate_financial_metrics data loan_type t).payment_ratio = 0
      ∧ (FinancialCalculatorService.calculate_financial_metrics data loan_type t).disposable_income
        = data.monthly_income + data.other_income
            - (data.monthly_expenses + data.existing_loans) := by
  constructor
  · show FinancialCalculatorService.calculate_payment_ratio _ _ = 0
    unfold FinancialCalculatorService.calculate_payment_ratio
    rw [if_pos h]
  · rfl

/-- C9, witness: with zero primary income and one million of other income the
payment ratio is `0` while disposable income is the full million. -/
theorem C9_payment_ratio_witness :
    (0 : ℚ) ≤ 0
      ∧ (FinancialCalculatorService.calculate_financial_metrics
          { monthly_income := 0, other_income := 1000000, loan_amount := 50000 }
          "personal" none).payment_ratio = 0
      ∧ (FinancialCalculatorService.calculate_financial_metrics
          { monthly_income := 0, other_income := 1000000, loan_amount := 50000 }
          "personal" none).disposable_income = 1000000 := by
  have h := C9_payment_ratio_uses_primary_income_only
    { monthly_income := 0, other_income := 1000000, loan_amount := 50000 }
    "personal" none (by norm_num)
  exact ⟨le_refl 0, h.1, by rw [h.2]; norm_num⟩

/-! ### AmortizationService -/

namespace AmortizationService

/-- One month's entry in an amortization schedule (`PaymentPeriod` dataclass). -/
structure PaymentPeriod where
  period : ℕ
  payment : ℚ
  principal : ℚ
  interest : ℚ
  remaining_balance : ℚ
  cumulative_interest : ℚ
deriving Repr, DecidableEq

/-- `AmortizationSchedule` dataclass. -/
structure AmortizationSchedule where
  loan_amount : ℚ
  interest_rate : ℚ
  term_months : ℕ
  monthly_payment : ℚ
  periods : List PaymentPeriod
  total_interest : ℚ
  total_payments : ℚ
deriving Repr, DecidableEq

/-- The period-generation loop of `calculate_amortization_schedule`, as a
recursion on the remaining number of months.  The state carried between
iterations is the 1-based month counter, the running (unclamped) balance and
the cumulative interest, exactly as in the Python loop; on the final month the
residual balance is folded into that month's principal and the balance
variable is set to `0`. -/
def periodsLoop (M r : ℚ) (n : ℕ) : ℕ → ℕ → ℚ → ℚ → List PaymentPeriod
  | 0, _, _, _ => []
  | fuel + 1, month, b, c =>
    let interest_payment := b * r
    let principal_payment := M - interest_payment
    let c2 := c + interest_payment
    let b2 := b - principal_payment
    let principal3 := if month = n then principal_payment + b2 else principal_payment
    let b3 := if month = n then 0 else b2
    { period := month, payment := M, principal := principal3, interest := interest_payment,
      remaining_balance := max 0 b3, cumulative_interest := c2 } ::
      periodsLoop M r n fuel (month + 1) b3 c2

/-- `calculate_amortization_schedule` (`amortization_service.py`). -/
def calculate_amortization_schedule (loan_amount annual_interest_rate : ℚ)
    (term_years : ℤ) : AmortizationSchedule :=
  if loan_amount ≤ 0 ∨ term_years ≤ 0 then
    { loan_amount := loan_amount, interest_rate := annual_interest_rate, term_months := 0,
      monthly_payment := 0, periods := [], total_interest := 0, total_payments := 0 }
  else
    let monthly_rate := annual_interest_rate / 12
    let term_months : ℕ := term_years.toNat * 12
    let monthly_payment :=
      if monthly_rate = 0 then loan_amount / (term_months : ℚ)
      else loan_amount * (monthly_rate * (1 + monthly_rate) ^ term_months) /
        ((1 + monthly_rate) ^ term_months - 1)
    { loan_amount := loan_amount
      interest_rate := annual_interest_rate
      term_months := term_months
      monthly_payment := monthly_payment
      periods := periodsLoop monthly_payment monthly_rate term_months term_months 1 loan_amount 0
      total_interest := monthly_payment * term_months - loan_amount
      total_payments := monthly_payment * term_months }

/-- Result record of `get_payment_breakdown`; the out-of-range sentinel
dictionary carries no `remaining_balance` key, modelled by `Option`. -/
structure PaymentBreakdown where
  period : ℤ
  payment : ℚ
  principal : ℚ
  interest : ℚ
  principal_percentage : ℚ
  interest_percentage : ℚ
  remaining_balance : Option ℚ
deriving Repr, DecidableEq

/-- `get_payment_breakdown` (`amortization_service.py`). -/
def get_payment_breakdown (schedule : AmortizationSchedule) (period : ℤ := 1) :
    PaymentBreakdown :=
  if schedule.periods.isEmpty ∨ period < 1 ∨ period > (schedule.periods.length : ℤ) then
    { period := period, payment := 0, principal := 0, interest := 0,
      principal_percentage := 0, interest_percentage := 0, remaining_balance := none }
  else
    let pp := schedule.periods.getD (period - 1).toNat
      { period := 0, payment := 0, principal := 0, interest := 0,
        remaining_balance := 0, cumulative_interest := 0 }
    let principal_pct := if pp.payment > 0 then pp.principal / pp.payment * 100 else 0
    let interest_pct := if pp.payment > 0 then pp.interest / pp.payment * 100 else 0
    { period := period, payment := pp.payment, principal := pp.principal,
      interest := pp.interest, principal_percentage := principal_pct,
      interest_percentage := interest_pct, remaining_balance := some pp.remaining_balance }

end AmortizationService

/-! ### LoanPlanGeneratorService -/

namespace LoanPlanGeneratorService

/-- `LoanPlan` dataclass (`loan_plan_generator_service.py`).  The source fills
`id` with a truncated random UUID; that nondeterministic identifier carries no
computational content and is modelled as the empty string. -/
structure LoanPlan where
  id : String
  name : String
  amount : ℚ
  term_years : ℤ
  interest_rate : ℚ
  down_payment : ℚ
  down_payment_percentage : ℚ
  monthly_payment : ℚ
  total_interest : ℚ
  total_cost : ℚ
  payment_to_income_ratio : ℚ
deriving Repr, DecidableEq

/-- `DEFAULT_RATES` dictionary (the §6 table). -/
def DEFAULT_RATES (loan_type : String) : Option ℚ :=
  if loan_type = "mortgage" then some (35/1000)
  else if loan_type = "personal" then some (7/100)
  else if loan_type = "auto" then some (5/100)
  else if loan_type = "student" then some (4/100)
  else if loan_type = "business" then some (6/100)
  else if loan_type = "unknown" then some (6/100)
  else none

/-- `TERM_OPTIONS` dictionary. -/
def TERM_OPTIONS (loan_type : String) : Option (List ℤ) :=
  if loan_type = "mortgage" then some [15, 20, 25, 30]
  else if loan_type = "personal" then some [3, 5, 7]
  else if loan_type = "auto" then some [3, 5, 7]
  else if loan_type = "student" then some [10, 15, 20]
  else if loan_type = "business" then some [5, 10, 15]
  else if loan_type = "unknown" then some [5, 10, 15]
  else none

/-- `DOWN_PAYMENT_OPTIONS`. -/
def DOWN_PAYMENT_OPTIONS : List ℚ := [10/100, 15/100, 20/100]

/-- The generator's private `_calculate_monthly_payment` helper. -/
def gen_calculate_monthly_payment (principal : ℚ) (annual_rate : ℚ) (years : ℤ) : ℚ :=
  if principal ≤ 0 ∨ years ≤ 0 then 0
  else if annual_rate = 0 then principal / ((years : ℚ) * 12)
  else
    let monthly_rate := annual_rate / 12
    let num_payments : ℕ := years.toNat * 12
    principal * (monthly_rate * (1 + monthly_rate) ^ num_payments) /
      ((1 + monthly_rate) ^ num_payments - 1)

/-- The generator's private `_generate_plan_name` helper (both branches of the
final down-payment test produce the same string in the source). -/
def generate_plan_name (term_years : ℤ) (down_payment_pct : ℚ)
    (payment_ratio : ℚ) : String :=
  let term_desc :=
    if term_years ≤ 10 then "Γρήγορη Αποπληρωμή"
    else if term_years ≤ 20 then "Ισορροπημένο"
    else "Μακροπρόθεσμο"
  let affordability :=
    if payment_ratio ≤ 25 then "Άνετο"
    else if payment_ratio ≤ 35 then "Μέτριο"
    else "Απαιτητικό"
  if down_payment_pct ≥ 15/100 then
    term_desc ++ " (" ++ toString term_years ++ " έτη) - " ++ affordability
  else
    term_desc ++ " (" ++ toString term_years ++ " έτη) - " ++ affordability

/-- `create_loan_plan`: returns `none` (Python `None`) when the
post-down-payment loan amount or the term is non-positive. -/
def create_loan_plan (total_amount down_payment_percentage interest_rate : ℚ)
    (term_years : ℤ) (monthly_income : ℚ) : Option LoanPlan :=
  let down_payment := total_amount * down_payment_percentage
  let loan_amount := total_amount - down_payment
  if loan_amount ≤ 0 ∨ term_years ≤ 0 then none
  else
    let monthly_payment := gen_calculate_monthly_payment loan_amount interest_rate term_years
    let total_payments := monthly_payment * (term_years : ℚ) * 12
    let total_interest := total_payments - loan_amount
    let total_cost := total_payments + down_payment
    let payment_ratio := if monthly_income > 0 then monthly_payment / monthly_income * 100 else 0
    some
      { id := ""
        name := generate_plan_name term_years down_payment_percentage payment_ratio
        amount := loan_amount
        term_years := term_years
        interest_rate := interest_rate
        down_payment := down_payment
        down_payment_percentage := down_payment_percentage * 100
        monthly_payment := monthly_payment
        total_interest := total_interest
        total_cost := total_cost
        payment_to_income_ratio := payment_ratio }

/-- `generate_loan_options` (`loan_plan_generator_service.py`). -/
def generate_loan_options (total_amount : ℚ) (loan_type : String)
    (monthly_income : ℚ) (custom_rate : Option ℚ := none) : List LoanPlan :=
  let interest_rate := custom_rate.getD ((DEFAULT_RATES loan_type).getD
    ((DEFAULT_RATES "unknown").getD 0))
  let term_options := (TERM_OPTIONS loan_type).getD ((TERM_OPTIONS "unknown").getD [])
  term_options.flatMap fun term =>
    if loan_type = "mortgage" ∧ total_amount > 50000 then
      DOWN_PAYMENT_OPTIONS.filterMap fun down_pct =>
        create_loan_plan total_amount down_pct interest_rate term monthly_income
    else
      (create_loan_plan total_amount 0 interest_rate term monthly_income).toList

end LoanPlanGeneratorService

/-! ### Closed form of the amortization loop

The loop of `calculate_amortization_schedule` carries a running balance and a
running cumulative interest; `balSeq` and `cumSeq` are those two state
sequences (after `k` payments of `M` at monthly rate `r` starting from
principal `P`), and `mkPeriod` is the record the loop emits for 1-based month
`m` of an `n`-month schedule. -/

namespace AmortizationService

/-- Balance after `k` payments: the exact state recurrence of the loop. -/
def balSeq (P M r : ℚ) : ℕ → ℚ
  | 0 => P
  | k + 1 => balSeq P M r k - (M - balSeq P M r k * r)

/-- Cumulative interest after `k` payments. -/
def cumSeq (P M r : ℚ) : ℕ → ℚ
  | 0 => 0
  | k + 1 => cumSeq P M r k + balSeq P M r k * r

/-- The period record emitted for month `m` (1-based) of an `n`-month loop. -/
def mkPeriod (P M r : ℚ) (n m : ℕ) : PaymentPeriod :=
  let b := balSeq P M r (m - 1)
  let interest_payment := b * r
  let principal_payment := M - interest_payment
  let b2 := b - principal_payment
  let principal3 := if m = n then principal_payment + b2 else principal_payment
  let b3 := if m = n then 0 else b2
  { period := m, payment := M, principal := principal3, interest := interest_payment,
    remaining_balance := max 0 b3, cumulative_interest := cumSeq P M r m }

theorem periodsLoop_eq_map (P M r : ℚ) (n : ℕ) :
    ∀ fuel m : ℕ, m + 1 + fuel ≤ n + 1 →
      periodsLoop M r n fuel (m + 1) (balSeq P M r m) (cumSeq P M r m)
        = (List.range fuel).map (fun j => mkPeriod P M r n (m + 1 + j)) := by
  intro fuel
  induction fuel with
  | zero => intro m _; rfl
  | succ fuel ih =>
    intro m h
    have hstep : periodsLoop M r n (fuel + 1) (m + 1) (balSeq P M r m) (cumSeq P M r m)
        = mkPeriod P M r n (m + 1) ::
            periodsLoop M r n fuel (m + 1 + 1)
              (if m + 1 = n then 0 else balSeq P M r (m + 1)) (cumSeq P M r (m + 1)) := rfl
    rw [hstep]
    by_cases hmn : m + 1 = n
    · have hfuel : fuel = 0 := by omega
      subst hfuel
      rfl
    · rw [if_neg hmn, ih (m + 1) (by omega), List.range_succ_eq_map, List.map_cons,
        List.map_map]
      congr 1
      apply List.map_congr_left
      intro j _
      show mkPeriod P M r n (m + 1 + 1 + j) = mkPeriod P M r n (m + 1 + (j + 1))
      congr 1
      omega

/-- The periods of a non-degenerate schedule are exactly the month-indexed
closed-form records. -/
theorem schedule_periods_closed (P rr : ℚ) (T : ℤ) (hg : ¬(P ≤ 0 ∨ T ≤ 0)) :
    (calculate_amortization_schedule P rr T).periods
      = (List.range (T.toNat * 12)).map
          (fun j => mkPeriod P
            (if rr / 12 = 0 then P / ((T.toNat * 12 : ℕ) : ℚ)
              else P * (rr / 12 * (1 + rr / 12) ^ (T.toNat * 12)) /
                ((1 + rr / 12) ^ (T.toNat * 12) - 1))
            (rr / 12) (T.toNat * 12) (1 + j)) := by
  unfold calculate_amortization_schedule
  rw [if_neg hg]
  exact periodsLoop_eq_map P _ (rr / 12) (T.toNat * 12) (T.toNat * 12) 0 (by omega)

theorem balSeq_rate_zero (P M : ℚ) : ∀ k : ℕ, balSeq P M 0 k = P - k * M := by
  intro k
  induction k with
  | zero => simp [balSeq]
  | succ k ih =>
    rw [balSeq, ih]
    push_cast
    ring

theorem balSeq_annuity (P r : ℚ) (n : ℕ) (hD : (1 + r) ^ n - 1 ≠ 0) :
    ∀ k : ℕ, balSeq P (P * (r * (1 + r) ^ n) / ((1 + r) ^ n - 1)) r k
      = P * ((1 + r) ^ n - (1 + r) ^ k) / ((1 + r) ^ n - 1) := by
  intro k
  induction k with
  | zero =>
    rw [balSeq, pow_zero]
    field_simp
  | succ k ih =>
    rw [balSeq, ih, pow_succ]
    field_simp
    ring

/-- For the schedule's own monthly payment (simple division at rate zero, the
annuity formula otherwise) the balance sequence decreases, stays non-negative
through month `n`, and reaches exactly `0` at month `n`. -/
theorem balSeq_facts (P M r : ℚ) (n : ℕ) (hP : 0 < P) (hr : 0 ≤ r) (hn : n ≠ 0)
    (hM : M = if r = 0 then P / (n : ℚ)
      else P * (r * (1 + r) ^ n) / ((1 + r) ^ n - 1)) :
    (∀ k, balSeq P M r (k + 1) ≤ balSeq P M r k)
      ∧ (∀ k, k ≤ n → 0 ≤ balSeq P M r k)
      ∧ balSeq P M r n = 0 := by
  by_cases h0 : r = 0
  · subst h0
    rw [if_pos rfl] at hM
    have hnq : (0 : ℚ) < (n : ℚ) := by exact_mod_cast Nat.pos_of_ne_zero hn
    have hMpos : 0 < M := by rw [hM]; positivity
    refine ⟨fun k => ?_, fun k hk => ?_, ?_⟩
    · rw [balSeq_rate_zero, balSeq_rate_zero]
      push_cast
      linarith
    · rw [balSeq_rate_zero, hM]
      have hkq : (k : ℚ) ≤ (n : ℚ) := by exact_mod_cast hk
      have h1 : (k : ℚ) * (P / n) ≤ (n : ℚ) * (P / n) :=
        mul_le_mul_of_nonneg_right hkq (by positivity)
      have h2 : (n : ℚ) * (P / n) = P := by field_simp
      linarith
    · rw [balSeq_rate_zero, hM]
      field_simp
  · have hrpos : 0 < r := lt_of_le_of_ne hr (Ne.symm h0)
    have h1r : (1 : ℚ) < 1 + r := by linarith
    have hDpos : 0 < (1 + r) ^ n - 1 := sub_pos.2 (one_lt_pow₀ h1r hn)
    rw [if_neg h0] at hM
    subst hM
    have hbal := balSeq_annuity P r n (ne_of_gt hDpos)
    refine ⟨fun k => ?_, fun k hk => ?_, ?_⟩
    · rw [hbal, hbal]
      have hpow : (1 + r) ^ k ≤ (1 + r) ^ (k + 1) :=
        pow_le_pow_right₀ h1r.le (Nat.le_succ k)
      rw [div_le_div_iff₀ hDpos hDpos]
      have h1 : P * ((1 + r) ^ n - (1 + r) ^ (k + 1)) ≤ P * ((1 + r) ^ n - (1 + r) ^ k) :=
        mul_le_mul_of_nonneg_left (sub_le_sub_left hpow _) hP.le
      exact mul_le_mul_of_nonneg_right h1 hDpos.le
    · rw [hbal]
      refine div_nonneg (mul_nonneg hP.le ?_) hDpos.le
      have := pow_le_pow_right₀ h1r.le hk
      linarith
    · rw [hbal]
      simp

/-- The recorded remaining balance of month `m ≥ 1` equals `max 0` of the
month-`m` balance (the final-month clamp coincides with the balance when the
balance at `n` is `0`). -/
theorem mkPeriod_remaining_balance (P M r : ℚ) (n m : ℕ) (hm : 1 ≤ m)
    (hend : balSeq P M r n = 0) :
    (mkPeriod P M r n m).remaining_balance = max 0 (balSeq P M r m) := by
  obtain ⟨m', rfl⟩ : ∃ m', m = m' + 1 := ⟨m - 1, by omega⟩
  show max 0 (if m' + 1 = n then 0
    else balSeq P M r m' - (M - balSeq P M r m' * r)) = _
  by_cases h : m' + 1 = n
  · rw [if_pos h, h, hend]
  · rw [if_neg h]
    rfl

/-- The principal portion of a non-final month telescopes the balance. -/
theorem mkPeriod_principal_nonfinal (P M r : ℚ) (n m : ℕ) (hm : 1 ≤ m) (hmn : m ≠ n) :
    (mkPeriod P M r n m).principal = balSeq P M r (m - 1) - balSeq P M r m := by
  obtain ⟨m', rfl⟩ : ∃ m', m = m' + 1 := ⟨m - 1, by omega⟩
  show (if m' + 1 = n then _ else M - balSeq P M r m' * r) = _
  rw [if_neg hmn]
  show M - balSeq P M r m' * r
    = balSeq P M r m' - (balSeq P M r m' - (M - balSeq P M r m' * r))
  ring

/-- The final month's principal absorbs the whole incoming balance. -/
theorem mkPeriod_principal_final (P M r : ℚ) (n : ℕ) (hn : 1 ≤ n) :
    (mkPeriod P M r n n).principal = balSeq P M r (n - 1) := by
  obtain ⟨n', rfl⟩ : ∃ n', n = n' + 1 := ⟨n - 1, by omega⟩
  show (if n' + 1 = n' + 1 then
      (M - balSeq P M r n' * r)
        + (balSeq P M r n' - (M - balSeq P M r n' * r))
    else _) = _
  rw [if_pos rfl]
  show _ = balSeq P M r n'
  ring

/-- Telescoping sum of consecutive differences over `List.range`. -/
theorem sum_range_map_sub (g : ℕ → ℚ) :
    ∀ k, ((List.range k).map (fun j => g j - g (j + 1))).sum = g 0 - g k := by
  intro k
  induction k with
  | zero => simp
  | succ k ih =>
    rw [List.range_succ, List.map_append, List.sum_append, ih]
    simp only [List.map_cons, List.map_nil, List.sum_cons, List.sum_nil, add_zero]
    ring

end AmortizationService

/-! ## Claim C5 -/

/-- C5: for every schedule built with positive principal, non-negative annual
rate and positive term, the recorded remaining balances are non-negative and
non-increasing across consecutive periods, the cumulative interest is
non-decreasing, the final period's remaining balance is exactly `0`, and the
residual balance is folded into the final period's principal so that the
principal portions sum to exactly the principal. -/
theorem C5_schedule_invariants (P rr : ℚ) (T : ℤ)
    (hP : 0 < P) (hrr : 0 ≤ rr) (hT : 0 < T) :
    (∀ p ∈ (AmortizationService.calculate_amortization_schedule P rr T).periods,
        0 ≤ p.remaining_balance)
      ∧ List.Chain' (fun a b => b.remaining_balance ≤ a.remaining_balance)
          (AmortizationService.calculate_amortization_schedule P rr T).periods
      ∧ List.Chain' (fun a b => a.cumulative_interest ≤ b.cumulative_interest)
          (AmortizationService.calculate_amortization_schedule P rr T).periods
      ∧ (∀ p, (AmortizationService.calculate_amortization_schedule P rr T).periods.getLast?
            = some p → p.remaining_balance = 0)
      ∧ ((AmortizationService.calculate_amortization_schedule P rr T).periods.map
          (fun p => p.principal)).sum = P := by
  have hg : ¬(P ≤ 0 ∨ T ≤ 0) := by
    push_neg
    exact ⟨hP, hT⟩
  have hr0 : 0 ≤ rr / 12 := div_nonneg hrr (by norm_num)
  obtain ⟨k, hk⟩ : ∃ k, T.toNat * 12 = k + 1 := ⟨T.toNat * 12 - 1, by omega⟩
  have hper := AmortizationService.schedule_periods_closed P rr T hg
  have hfacts := AmortizationService.balSeq_facts P _ (rr / 12) (T.toNat * 12) hP hr0
    (by omega) rfl
  rw [hk] at hper hfacts
  set M : ℚ := if rr / 12 = 0 then P / ((k + 1 : ℕ) : ℚ)
    else P * (rr / 12 * (1 + rr / 12) ^ (k + 1)) / ((1 + rr / 12) ^ (k + 1) - 1) with hMdef
  obtain ⟨hdec, hnn, hend⟩ := hfacts
  refine ⟨?_, ?_, ?_, ?_, ?_⟩
  · rw [hper]
    intro p hp
    obtain ⟨j, hj, rfl⟩ := List.mem_map.1 hp
    exact le_max_left 0 _
  · rw [hper]
    rw [List.chain'_map]
    refine (List.chain'_range_succ _ k).2 fun m hm => ?_
    rw [AmortizationService.mkPeriod_remaining_balance _ _ _ _ _ (by omega) hend,
      AmortizationService.mkPeriod_remaining_balance _ _ _ _ _ (by omega) hend]
    have h1 : 1 + (m + 1) = (1 + m) + 1 := by omega
    rw [h1]
    exact max_le_max le_rfl (hdec (1 + m))
  · rw [hper]
    rw [List.chain'_map]
    refine (List.chain'_range_succ _ k).2 fun m hm => ?_
    show AmortizationService.cumSeq _ _ _ (1 + m)
      ≤ AmortizationService.cumSeq _ _ _ (1 + (m + 1))
    have h1 : 1 + (m + 1) = (1 + m) + 1 := by omega
    rw [h1]
    show AmortizationService.cumSeq _ _ _ (1 + m)
      ≤ AmortizationService.cumSeq _ _ _ (1 + m)
        + AmortizationService.balSeq _ _ _ (1 + m) * (rr / 12)
    have hb : 0 ≤ AmortizationService.balSeq P _ (rr / 12) (1 + m) := hnn (1 + m) (by omega)
    nlinarith [mul_nonneg hb hr0]
  · rw [hper]
    intro p hlast
    rw [List.range_succ, List.map_append] at hlast
    simp only [List.map_cons, List.map_nil] at hlast
    rw [List.getLast?_concat] at hlast
    obtain rfl : AmortizationService.mkPeriod P _ (rr / 12) (k + 1) (1 + k) = p :=
      Option.some.inj hlast
    rw [AmortizationService.mkPeriod_remaining_balance _ _ _ _ _ (by omega) hend]
    have h1 : 1 + k = k + 1 := by omega
    rw [h1, hend]
    simp
  · rw [hper, List.map_map, List.range_succ, List.map_append, List.sum_append]
    have hmain : ((List.range k).map
        ((fun p => p.principal) ∘ fun j => AmortizationService.mkPeriod P M (rr / 12) (k + 1) (1 + j))).sum
        = ((List.range k).map (fun j => AmortizationService.balSeq P M (rr / 12) j
            - AmortizationService.balSeq P M (rr / 12) (j + 1))).sum := by
      apply congrArg
      apply List.map_congr_left
      intro j hj
      have hjk : j < k := List.mem_range.1 hj
      show (AmortizationService.mkPeriod P M (rr / 12) (k + 1) (1 + j)).principal = _
      rw [AmortizationService.mkPeriod_principal_nonfinal _ _ _ _ _ (by omega) (by omega)]
      have h1 : 1 + j - 1 = j := by omega
      have h2 : 1 + j = j + 1 := by omega
      rw [h1, h2]
    rw [hmain, AmortizationService.sum_range_map_sub]
    have hfin : ((fun p => p.principal) ∘ fun j =>
        AmortizationService.mkPeriod P M (rr / 12) (k + 1) (1 + j)) k
        = AmortizationService.balSeq P M (rr / 12) k := by
      show (AmortizationService.mkPeriod P M (rr / 12) (k + 1) (1 + k)).principal = _
      have h1 : 1 + k = k + 1 := by omega
      rw [h1, AmortizationService.mkPeriod_principal_final _ _ _ _ (by omega)]
      simp
    simp only [List.map_cons, List.map_nil, List.sum_cons, List.sum_nil, add_zero]
    rw [hfin]
    show AmortizationService.balSeq P _ (rr / 12) 0
      - AmortizationService.balSeq P _ (rr / 12) k
      + AmortizationService.balSeq P _ (rr / 12) k = P
    rw [AmortizationService.balSeq]
    ring

/-- C5, witness: the invariants evaluated on the concrete schedule for
principal 1200, rate 0, term 1 year. -/
theorem C5_schedule_invariants_witness :
    (∀ p ∈ (AmortizationService.calculate_amortization_schedule 1200 0 1).periods,
        0 ≤ p.remaining_balance)
      ∧ List.Chain' (fun a b => b.remaining_balance ≤ a.remaining_balance)
          (AmortizationService.calculate_amortization_schedule 1200 0 1).periods
      ∧ List.Chain' (fun a b => a.cumulative_interest ≤ b.cumulative_interest)
          (AmortizationService.calculate_amortization_schedule 1200 0 1).periods
      ∧ (∀ p, (AmortizationService.calculate_amortization_schedule 1200 0 1).periods.getLast?
            = some p → p.remaining_balance = 0)
      ∧ ((AmortizationService.calculate_amortization_schedule 1200 0 1).periods.map
          (fun p => p.principal)).sum = 1200 :=
  C5_schedule_invariants 1200 0 1 (by norm_num) le_rfl (by norm_num)

/-! ## Claims C6, C10 -/

/-- C6: no core operation raises an error.  A degenerate schedule request
(principal ≤ 0 or term ≤ 0) yields zero monthly payment and an empty period
list; `create_loan_plan` yields `none` when the post-down-payment amount or
term is non-positive; the payment ratio is `0` for non-positive income; and a
breakdown query with a period index outside `[1, number of periods]` yields a
zero-filled breakdown result. -/
theorem C6_edge_cases_are_sentinels :
    (∀ (P r : ℚ) (T : ℤ), P ≤ 0 ∨ T ≤ 0 →
      (AmortizationService.calculate_amortization_schedule P r T).monthly_payment = 0
        ∧ (AmortizationService.calculate_amortization_schedule P r T).periods = [])
    ∧ (∀ (total dp rate : ℚ) (T : ℤ) (income : ℚ),
        total - total * dp ≤ 0 ∨ T ≤ 0 →
        LoanPlanGeneratorService.create_loan_plan total dp rate T income = none)
    ∧ (∀ payment income : ℚ, income ≤ 0 →
        FinancialCalculatorService.calculate_payment_ratio payment income = 0)
    ∧ (∀ (s : AmortizationService.AmortizationSchedule) (period : ℤ),
        period < 1 ∨ period > (s.periods.length : ℤ) →
        AmortizationService.get_payment_breakdown s period =
          { period := period, payment := 0, principal := 0, interest := 0,
            principal_percentage := 0, interest_percentage := 0,
            remaining_balance := none }) := by
  refine ⟨fun P r T h => ?_, fun total dp rate T income h => ?_,
    fun payment income h => ?_, fun s period h => ?_⟩
  · unfold AmortizationService.calculate_amortization_schedule
    rw [if_pos h]
    exact ⟨rfl, rfl⟩
  · unfold LoanPlanGeneratorService.create_loan_plan
    exact if_pos h
  · unfold FinancialCalculatorService.calculate_payment_ratio
    exact if_pos h
  · unfold AmortizationService.get_payment_breakdown
    exact if_pos (Or.inr h)

/-- C6, witness: the four sentinel behaviours at concrete inputs. -/
theorem C6_edge_cases_witness :
    (AmortizationService.calculate_amortization_schedule (-5) 0.05 10).periods = []
      ∧ LoanPlanGeneratorService.create_loan_plan 100 2 0.05 10 1000 = none
      ∧ FinancialCalculatorService.calculate_payment_ratio 500 0 = 0
      ∧ (AmortizationService.get_payment_breakdown
            (AmortizationService.calculate_amortization_schedule 100 0 1) 99).payment = 0 :=
  ⟨(C6_edge_cases_are_sentinels.1 (-5) 0.05 10 (Or.inl (by norm_num))).2,
    C6_edge_cases_are_sentinels.2.1 100 2 0.05 10 1000 (Or.inl (by norm_num)),
    C6_edge_cases_are_sentinels.2.2.1 500 0 le_rfl,
    by rw [C6_edge_cases_are_sentinels.2.2.2 _ 99 (Or.inr (by decide))]⟩

/-- C10: for positive principal, non-negative rate and positive term, the
three monthly-payment implementations
(`FinancialCalculatorService.calculate_monthly_payment`, the generator's
private helper, and the payment stored in the amortization schedule) agree,
and the common value is `principal / (12·years)` at rate `0` and the standard
annuity formula otherwise. -/
theorem C10_monthly_payment_implementations_agree
    (P r : ℚ) (T : ℤ) (hP : 0 < P) (hr : 0 ≤ r) (hT : 0 < T) :
    FinancialCalculatorService.calculate_monthly_payment P r T
        = LoanPlanGeneratorService.gen_calculate_monthly_payment P r T
      ∧ (AmortizationService.calculate_amortization_schedule P r T).monthly_payment
        = FinancialCalculatorService.calculate_monthly_payment P r T
      ∧ (r = 0 →
          FinancialCalculatorService.calculate_monthly_payment P r T = P / ((T : ℚ) * 12))
      ∧ (r ≠ 0 →
          FinancialCalculatorService.calculate_monthly_payment P r T
            = P * ((r / 12) * (1 + r / 12) ^ (T.toNat * 12)) /
                ((1 + r / 12) ^ (T.toNat * 12) - 1)) := by
  have hg : ¬(P ≤ 0 ∨ T ≤ 0) := by
    push_neg
    exact ⟨hP, hT⟩
  refine ⟨rfl, ?_, fun h0 => ?_, fun h0 => ?_⟩
  · unfold AmortizationService.calculate_amortization_schedule
      FinancialCalculatorService.calculate_monthly_payment
    rw [if_neg hg, if_neg hg]
    by_cases h0 : r = 0
    · have h12 : r / 12 = 0 := by rw [h0, zero_div]
      simp only [if_pos h12, if_pos h0]
      have hcast : ((T.toNat : ℕ) : ℚ) = (T : ℚ) := by
        exact_mod_cast Int.toNat_of_nonneg hT.le
      push_cast
      rw [hcast]
    · have h12 : ¬(r / 12 = 0) := by
        simp only [div_eq_zero_iff]
        push_neg
        exact ⟨h0, by norm_num⟩
      simp only [if_neg h12, if_neg h0]
  · unfold FinancialCalculatorService.calculate_monthly_payment
    rw [if_neg hg, if_pos h0]
  · unfold FinancialCalculatorService.calculate_monthly_payment
    rw [if_neg hg, if_neg h0]

/-- C10, witness: agreement evaluated at principal 1200, rate 0, term 1 year,
where the common monthly payment is 100. -/
theorem C10_monthly_payment_witness :
    FinancialCalculatorService.calculate_monthly_payment 1200 0 1
        = LoanPlanGeneratorService.gen_calculate_monthly_payment 1200 0 1
      ∧ (AmortizationService.calculate_amortization_schedule 1200 0 1).monthly_payment
        = FinancialCalculatorService.calculate_monthly_payment 1200 0 1
      ∧ FinancialCalculatorService.calculate_monthly_payment 1200 0 1 = 100 := by
  have h := C10_monthly_payment_implementations_agree 1200 0 1
    (by norm_num) le_rfl (by norm_num)
  refine ⟨h.1, h.2.1, ?_⟩
  rw [h.2.2.1 rfl]
  norm_num

/-! ### LoanComparisonService -/

namespace LoanComparisonService

open LoanPlanGeneratorService (LoanPlan)

/-- `RankedPlan` dataclass (`loan_comparison_service.py`). -/
structure RankedPlan where
  plan : LoanPlan
  score : ℚ
  affordability_score : ℚ
  cost_score : ℚ
  payment_score : ℚ
  term_score : ℚ
  recommendation_reason : String
deriving Repr, DecidableEq

/-- The optional `preferences` dictionary: both keys default to `False`. -/
structure Preferences where
  prefer_short_term : Bool := false
  prefer_long_term : Bool := false
deriving Repr, DecidableEq

/-- `AFFORDABILITY_WEIGHT`. -/
def AFFORDABILITY_WEIGHT : ℚ := 30/100

/-- `COST_WEIGHT`. -/
def COST_WEIGHT : ℚ := 25/100

/-- `PAYMENT_WEIGHT`. -/
def PAYMENT_WEIGHT : ℚ := 20/100

/-- `TERM_WEIGHT`. -/
def TERM_WEIGHT : ℚ := 15/100

/-- `FLEXIBILITY_WEIGHT`. -/
def FLEXIBILITY_WEIGHT : ℚ := 10/100

/-- `SAFE_PAYMENT_RATIO` threshold of the comparison service. -/
def safe_payment_ratio : ℚ := 30

/-- `WARNING_PAYMENT_RATIO` threshold of the comparison service. -/
def warning_payment_ratio : ℚ := 40

/-- Python's `min` over a non-empty list (the empty case is unreachable,
guarded by the callers). -/
def pyMin : List ℚ → ℚ
  | [] => 0
  | x :: xs => xs.foldl min x

/-- Python's `max` over a non-empty list. -/
def pyMax : List ℚ → ℚ
  | [] => 0
  | x :: xs => xs.foldl max x

/-- `_score_affordability`. -/
def score_affordability (plan : LoanPlan) : ℚ :=
  let ratio := plan.payment_to_income_ratio
  if ratio ≤ safe_payment_ratio then 100
  else if ratio ≤ warning_payment_ratio then
    100 - (ratio - safe_payment_ratio) /
      (warning_payment_ratio - safe_payment_ratio) * 50
  else max 0 (50 - (ratio - warning_payment_ratio) * 2)

/-- `_score_cost`: min–max normalization against the full candidate set. -/
def score_cost (plan : LoanPlan) (all_plans : List LoanPlan) : ℚ :=
  if all_plans.isEmpty then 50
  else
    let costs := all_plans.map fun p => p.total_cost
    let min_cost := pyMin costs
    let max_cost := pyMax costs
    if max_cost = min_cost then 100
    else max 0 (min 100 (100 - (plan.total_cost - min_cost) / (max_cost - min_cost) * 100))

/-- `_score_monthly_payment`. -/
def score_monthly_payment (plan : LoanPlan) (all_plans : List LoanPlan) : ℚ :=
  if all_plans.isEmpty then 50
  else
    let payments := all_plans.map fun p => p.monthly_payment
    let min_payment := pyMin payments
    let max_payment := pyMax payments
    if max_payment = min_payment then 100
    else max 0 (min 100
      (100 - (plan.monthly_payment - min_payment) / (max_payment - min_payment) * 100))

/-- `_score_term`. -/
def score_term (plan : LoanPlan) (preferences : Preferences) : ℚ :=
  if preferences.prefer_short_term then
    max 0 (100 - ((plan.term_years : ℚ) - 10) * 5)
  else if preferences.prefer_long_term then
    max 0 (min 100 (((plan.term_years : ℚ) - 10) * 5))
  else if 15 ≤ plan.term_years ∧ plan.term_years ≤ 20 then 100
  else if plan.term_years < 15 then 70 + ((plan.term_years : ℚ) - 10) * 6
  else 100 - ((plan.term_years : ℚ) - 20) * 3

/-- `_score_flexibility`. -/
def score_flexibility (plan : LoanPlan) : ℚ :=
  let term_factor := max 0 (100 - ((plan.term_years : ℚ) - 5) * 3)
  let ratio_factor := max 0 (100 - plan.payment_to_income_ratio * 2)
  (term_factor + ratio_factor) / 2

/-- `_generate_recommendation_reason` (the `term` argument is unused in the
source as well). -/
def generate_recommendation_reason (plan : LoanPlan)
    (affordability cost payment term : ℚ) : String :=
  let reasons : List String :=
    (if affordability ≥ 80 then ["Πολύ προσιτό"]
      else if affordability ≥ 60 then ["Αξιόπιστο"] else [])
    ++ (if cost ≥ 80 then ["Χαμηλό συνολικό κόστος"] else [])
    ++ (if payment ≥ 80 then ["Χαμηλή μηνιαία δόση"] else [])
    ++ (if plan.term_years ≤ 15 then ["Γρήγορη αποπληρωμή"]
      else if plan.term_years ≥ 25 then ["Μικρή μηνιαία επιβάρυνση"] else [])
  if reasons.isEmpty then "Ισορροπημένη επιλογή" else String.intercalate ", " reasons

/-- The loop body of `rank_loan_plans`: score one plan against the full set. -/
def scorePlan (all_plans : List LoanPlan) (preferences : Preferences)
    (plan : LoanPlan) : RankedPlan :=
  let affordability_score := score_affordability plan
  let cost_score := score_cost plan all_plans
  let payment_score := score_monthly_payment plan all_plans
  let term_score := score_term plan preferences
  let overall_score :=
    affordability_score * AFFORDABILITY_WEIGHT + cost_score * COST_WEIGHT +
      payment_score * PAYMENT_WEIGHT + term_score * TERM_WEIGHT +
      score_flexibility plan * FLEXIBILITY_WEIGHT
  { plan := plan
    score := overall_score
    affordability_score := affordability_score
    cost_score := cost_score
    payment_score := payment_score
    term_score := term_score
    recommendation_reason :=
      generate_recommendation_reason plan affordability_score cost_score
        payment_score term_score }

/-- Insert into a descending-sorted list, after any equal scores: the stable
insertion underlying the model of Python's stable `list.sort(reverse=True)`. -/
def insertDesc (x : RankedPlan) : List RankedPlan → List RankedPlan
  | [] => [x]
  | y :: ys => if y.score > x.score then y :: insertDesc x ys else x :: y :: ys

/-- Stable sort by descending score (extensionally equal to Python's stable
in-place sort with `reverse=True`). -/
def sortDesc : List RankedPlan → List RankedPlan
  | [] => []
  | x :: xs => insertDesc x (sortDesc xs)

/-- `rank_loan_plans` (`loan_comparison_service.py`). -/
def rank_loan_plans (plans : List LoanPlan) (financial_data : FinancialData)
    (preferences : Option Preferences := none) : List RankedPlan :=
  if plans.isEmpty then []
  else
    let prefs := preferences.getD {}
    sortDesc (plans.map (scorePlan plans prefs))

/-- Python's `abs` on a float, written as a conditional so that it evaluates
by reduction (it agrees with `|·|` on `ℚ`). -/
def pyAbs (q : ℚ) : ℚ := if q < 0 then -q else q

/-- `_is_diverse_from_selected`: the source returns `False` as soon as either
the term difference is below 5 years or the relative payment difference is
below 15% against any already-selected plan. -/
def is_diverse_from_selected (plan : LoanPlan) (selected : List LoanPlan) : Bool :=
  selected.all fun selected_plan =>
    decide (¬|plan.term_years - selected_plan.term_years| < 5)
      && decide (¬pyAbs (plan.monthly_payment - selected_plan.monthly_payment)
          / selected_plan.monthly_payment * 100 < 15)

/-- The selection loop of `select_best_plans` over the remaining candidates,
carrying the already-selected plans. -/
def selectLoop (count : ℤ) : List RankedPlan → List LoanPlan → List LoanPlan
  | [], selected => selected
  | rp :: rest, selected =>
    if (selected.length : ℤ) ≥ count then selected
    else
      let is_diverse := is_diverse_from_selected rp.plan selected
      if is_diverse = true ∨ (selected.length : ℤ) < count then
        selectLoop count rest (selected ++ [rp.plan])
      else selectLoop count rest selected

/-- `select_best_plans` (`loan_comparison_service.py`). -/
def select_best_plans (ranked_plans : List RankedPlan) (count : ℤ := 2) :
    List LoanPlan :=
  if ranked_plans.isEmpty ∨ count ≤ 0 then []
  else if (ranked_plans.length : ℤ) ≤ count then ranked_plans.map fun rp => rp.plan
  else
    match ranked_plans with
    | [] => []
    | top :: rest => (selectLoop count rest [top.plan]).take count.toNat

/-- The guard `is_diverse or len(selected) < count` of the selection loop is
always true when reached (the loop has already broken when `selected` is
full), so the loop appends every candidate in order up to `count`. -/
theorem selectLoop_take (count : ℤ) :
    ∀ (rest : List RankedPlan) (selected : List LoanPlan),
      selectLoop count rest selected
        = selected ++ (rest.map fun rp => rp.plan).take (count - selected.length).toNat := by
  intro rest
  induction rest with
  | nil =>
    intro s
    simp [selectLoop]
  | cons rp rest ih =>
    intro s
    rw [selectLoop]
    by_cases h : (s.length : ℤ) ≥ count
    · rw [if_pos h]
      have h0 : (count - (s.length : ℤ)).toNat = 0 := by omega
      simp [h0]
    · rw [if_neg h, if_pos (Or.inr (by omega)), ih]
      obtain ⟨m, hm⟩ : ∃ m, (count - (s.length : ℤ)).toNat = m + 1 :=
        ⟨(count - (s.length : ℤ)).toNat - 1, by omega⟩
      have h2 : (count - ((s ++ [rp.plan]).length : ℤ)).toNat = m := by
        simp only [List.length_append, List.length_cons, List.length_nil]
        push_cast
        omega
      rw [h2, hm, List.map_cons, List.take_succ_cons, List.append_assoc,
        List.singleton_append]

end LoanComparisonService

/-! ## Claim C2 -/

/-- C2, counterexample: with three ranked plans where the second-ranked plan
differs from the top plan by only 1 year of term and 0.2% of payment while the
third-ranked plan is diverse, `select_best_plans` still returns the first two
plans, so the claimed diversity filtering does not happen. -/
theorem C2_counterexample :
    LoanComparisonService.select_best_plans
        [⟨⟨"a", "A", 100000, 20, 0, 0, 0, 500, 20000, 120000, 20⟩, 90, 100, 80, 70, 100, ""⟩,
          ⟨⟨"b", "B", 100000, 21, 0, 0, 0, 501, 21000, 121000, 20⟩, 80, 100, 70, 60, 100, ""⟩,
          ⟨⟨"c", "C", 60000, 30, 0, 0, 0, 300, 15000, 108000, 12⟩, 70, 100, 60, 50, 100, ""⟩] 2
      = [⟨"a", "A", 100000, 20, 0, 0, 0, 500, 20000, 120000, 20⟩,
          ⟨"b", "B", 100000, 21, 0, 0, 0, 501, 21000, 121000, 20⟩]
    ∧ LoanComparisonService.is_diverse_from_selected
        ⟨"b", "B", 100000, 21, 0, 0, 0, 501, 21000, 121000, 20⟩
        [⟨"a", "A", 100000, 20, 0, 0, 0, 500, 20000, 120000, 20⟩] = false
    ∧ LoanComparisonService.is_diverse_from_selected
        ⟨"c", "C", 60000, 30, 0, 0, 0, 300, 15000, 108000, 12⟩
        [⟨"a", "A", 100000, 20, 0.035, 0, 0, 500, 20000, 120000, 20⟩] = true := by
  refine ⟨?_, ?_, ?_⟩ <;>
    norm_num [LoanComparisonService.select_best_plans, LoanComparisonService.selectLoop,
      LoanComparisonService.is_diverse_from_selected, LoanComparisonService.pyAbs]

/-- C2, amended: `select_best_plans` keeps the top-ranked plan and then
accepts every subsequent candidate in rank order unconditionally — the guard
`is_diverse or len(selected) < count` is always satisfied when reached, so the
computed diversity check never rejects anything and the result is exactly the
first `count` plans of the ranking (all of them when fewer exist, none for a
non-positive count). -/
theorem C2_select_best_plans_is_take
    (ranked : List LoanComparisonService.RankedPlan) (count : ℤ) :
    LoanComparisonService.select_best_plans ranked count
      = (ranked.map fun rp => rp.plan).take count.toNat := by
  cases ranked with
  | nil => simp [LoanComparisonService.select_best_plans]
  | cons top rest =>
    unfold LoanComparisonService.select_best_plans
    by_cases h0 : count ≤ 0
    · rw [if_pos (Or.inr h0)]
      have hc : count.toNat = 0 := by omega
      simp [hc]
    · have hne : ¬((top :: rest).isEmpty = true ∨ count ≤ 0) := by
        simp [h0]
      rw [if_neg hne]
      by_cases h2 : (((top :: rest).length : ℕ) : ℤ) ≤ count
      · rw [if_pos h2]
        rw [List.take_of_length_le]
        rw [List.length_map]
        omega
      · rw [if_neg h2]
        show (LoanComparisonService.selectLoop count rest [top.plan]).take count.toNat = _
        rw [LoanComparisonService.selectLoop_take]
        obtain ⟨m, hm⟩ : ∃ m, count.toNat = m + 1 := ⟨count.toNat - 1, by omega⟩
        have hk : (count - ((List.length [top.plan] : ℕ) : ℤ)).toNat = m := by
          simp only [List.length_cons, List.length_nil]
          omega
        rw [hk, List.map_cons, hm, List.take_succ_cons, List.singleton_append,
          List.take_succ_cons, List.take_take, min_self]

/-! ### Sortedness and stability of the ranking sort -/

namespace LoanComparisonService

theorem mem_insertDesc (x z : RankedPlan) :
    ∀ l, z ∈ insertDesc x l ↔ z = x ∨ z ∈ l := by
  intro l
  induction l with
  | nil => simp [insertDesc]
  | cons y ys ih =>
    rw [insertDesc]
    by_cases h : y.score > x.score
    · rw [if_pos h]
      simp only [List.mem_cons, ih]
      tauto
    · rw [if_neg h]
      simp only [List.mem_cons]

theorem mem_sortDesc (z : RankedPlan) : ∀ l, z ∈ sortDesc l ↔ z ∈ l := by
  intro l
  induction l with
  | nil => simp [sortDesc]
  | cons x xs ih =>
    rw [sortDesc, mem_insertDesc]
    simp only [List.mem_cons, ih]

theorem pairwise_insertDesc (x : RankedPlan) :
    ∀ l, List.Pairwise (fun a b => b.score ≤ a.score) l →
      List.Pairwise (fun a b => b.score ≤ a.score) (insertDesc x l) := by
  intro l
  induction l with
  | nil => intro _; simp [insertDesc]
  | cons y ys ih =>
    intro h
    rw [List.pairwise_cons] at h
    obtain ⟨hy, hys⟩ := h
    rw [insertDesc]
    by_cases hxy : y.score > x.score
    · rw [if_pos hxy]
      rw [List.pairwise_cons]
      refine ⟨fun z hz => ?_, ih hys⟩
      rcases (mem_insertDesc x z ys).1 hz with rfl | hzys
      · exact hxy.le
      · exact hy z hzys
    · rw [if_neg hxy]
      push_neg at hxy
      rw [List.pairwise_cons]
      refine ⟨fun z hz => ?_, List.pairwise_cons.2 ⟨hy, hys⟩⟩
      rcases List.mem_cons.1 hz with rfl | hzys
      · exact hxy
      · exact le_trans (hy z hzys) hxy

theorem pairwise_sortDesc :
    ∀ l, List.Pairwise (fun a b => b.score ≤ a.score) (sortDesc l) := by
  intro l
  induction l with
  | nil => simp [sortDesc]
  | cons x xs ih => exact pairwise_insertDesc x _ ih

theorem filter_insertDesc (x : RankedPlan) (s : ℚ) :
    ∀ l, (insertDesc x l).filter (fun rp => decide (rp.score = s))
      = if x.score = s then x :: l.filter (fun rp => decide (rp.score = s))
        else l.filter (fun rp => decide (rp.score = s)) := by
  intro l
  induction l with
  | nil =>
    rw [insertDesc]
    by_cases h : x.score = s
    · rw [if_pos h]
      simp [List.filter, h]
    · rw [if_neg h]
      simp [List.filter, h]
  | cons y ys ih =>
    rw [insertDesc]
    by_cases hxy : y.score > x.score
    · rw [if_pos hxy]
      by_cases hxs : x.score = s
      · have hys2 : ¬(y.score = s) := by
          intro hy
          rw [hxs] at hxy
          rw [hy] at hxy
          exact lt_irrefl s hxy
        rw [if_pos hxs]
        simp only [List.filter_cons, ih, if_pos hxs]
        simp [hys2]
      · rw [if_neg hxs]
        simp only [List.filter_cons, ih, if_neg hxs]
    · rw [if_neg hxy]
      by_cases hxs : x.score = s
      · rw [if_pos hxs]
        simp only [List.filter_cons]
        simp [hxs]
      · rw [if_neg hxs]
        simp only [List.filter_cons]
        simp [hxs]

theorem filter_sortDesc (s : ℚ) :
    ∀ l, (sortDesc l).filter (fun rp => decide (rp.score = s))
      = l.filter (fun rp => decide (rp.score = s)) := by
  intro l
  induction l with
  | nil => rfl
  | cons x xs ih =>
    rw [sortDesc, filter_insertDesc, ih]
    by_cases hxs : x.score = s
    · rw [if_pos hxs, List.filter_cons, if_pos (by simpa using hxs)]
    · rw [if_neg hxs, List.filter_cons, if_neg (by simpa using hxs)]

end LoanComparisonService

/-! ## Claim C8 -/

/-- C8: for every plan list, preference setting and financial data, the output
of `rank_loan_plans` is sorted in descending order of overall score, and for
every score value the sub-list of plans carrying that score equals the
corresponding sub-list of the generation-order scored list — i.e. ties keep
their original generation order (the sort is stable). -/
theorem C8_rank_sorted_descending_and_stable
    (plans : List LoanPlanGeneratorService.LoanPlan) (fd : FinancialData)
    (preferences : Option LoanComparisonService.Preferences) :
    List.Pairwise (fun a b => b.score ≤ a.score)
        (LoanComparisonService.rank_loan_plans plans fd preferences)
      ∧ ∀ s : ℚ,
        (LoanComparisonService.rank_loan_plans plans fd preferences).filter
            (fun rp => decide (rp.score = s))
          = (plans.map (LoanComparisonService.scorePlan plans
              (preferences.getD {}))).filter (fun rp => decide (rp.score = s)) := by
  unfold LoanComparisonService.rank_loan_plans
  by_cases h : plans.isEmpty
  · rw [if_pos h]
    have hnil : plans = [] := by
      cases plans with
      | nil => rfl
      | cons a l => simp at h
    subst hnil
    simp
  · rw [if_neg h]
    exact ⟨LoanComparisonService.pairwise_sortDesc _,
      fun s => LoanComparisonService.filter_sortDesc s _⟩

/-! ### Sub-score bounds -/

namespace LoanComparisonService

theorem score_affordability_bounds (p : LoanPlanGeneratorService.LoanPlan) :
    0 ≤ score_affordability p ∧ score_affordability p ≤ 100 := by
  unfold score_affordability safe_payment_ratio warning_payment_ratio
  by_cases h1 : p.payment_to_income_ratio ≤ 30
  · rw [if_pos h1]
    norm_num
  · rw [if_neg h1]
    push_neg at h1
    by_cases h2 : p.payment_to_income_ratio ≤ 40
    · rw [if_pos h2]
      constructor <;> [skip; skip] <;> nlinarith
    · rw [if_neg h2]
      push_neg at h2
      refine ⟨le_max_left 0 _, max_le (by norm_num) (by nlinarith)⟩

theorem score_cost_bounds (p : LoanPlanGeneratorService.LoanPlan)
    (all : List LoanPlanGeneratorService.LoanPlan) :
    0 ≤ score_cost p all ∧ score_cost p all ≤ 100 := by
  unfold score_cost
  by_cases h1 : all.isEmpty
  · rw [if_pos h1]
    norm_num
  · rw [if_neg h1]
    dsimp only
    by_cases h2 : pyMax (all.map fun p => p.total_cost) = pyMin (all.map fun p => p.total_cost)
    · rw [if_pos h2]
      norm_num
    · rw [if_neg h2]
      exact ⟨le_max_left 0 _, max_le (by norm_num) (min_le_left _ _)⟩

theorem score_monthly_payment_bounds (p : LoanPlanGeneratorService.LoanPlan)
    (all : List LoanPlanGeneratorService.LoanPlan) :
    0 ≤ score_monthly_payment p all ∧ score_monthly_payment p all ≤ 100 := by
  unfold score_monthly_payment
  by_cases h1 : all.isEmpty
  · rw [if_pos h1]
    norm_num
  · rw [if_neg h1]
    dsimp only
    by_cases h2 : pyMax (all.map fun p => p.monthly_payment)
        = pyMin (all.map fun p => p.monthly_payment)
    · rw [if_pos h2]
      norm_num
    · rw [if_neg h2]
      exact ⟨le_max_left 0 _, max_le (by norm_num) (min_le_left _ _)⟩

theorem score_term_bounds (p : LoanPlanGeneratorService.LoanPlan) (prefs : Preferences)
    (h1 : 10 ≤ p.term_years) (h2 : p.term_years ≤ 53) :
    0 ≤ score_term p prefs ∧ score_term p prefs ≤ 100 := by
  have hq1 : (10 : ℚ) ≤ (p.term_years : ℚ) := by exact_mod_cast h1
  have hq2 : ((p.term_years : ℚ)) ≤ 53 := by exact_mod_cast h2
  unfold score_term
  by_cases hs : prefs.prefer_short_term = true
  · rw [if_pos hs]
    refine ⟨le_max_left 0 _, max_le (by norm_num) (by linarith)⟩
  · rw [if_neg hs]
    by_cases hl : prefs.prefer_long_term = true
    · rw [if_pos hl]
      refine ⟨le_max_left 0 _, max_le (by norm_num) (min_le_left _ _)⟩
    · rw [if_neg hl]
      by_cases h15 : 15 ≤ p.term_years ∧ p.term_years ≤ 20
      · rw [if_pos h15]
        norm_num
      · rw [if_neg h15]
        by_cases hlt : p.term_years < 15
        · rw [if_pos hlt]
          have hqlt : ((p.term_years : ℚ)) < 15 := by exact_mod_cast hlt
          constructor <;> linarith
        · rw [if_neg hlt]
          have ht20 : (20 : ℚ) < (p.term_years : ℚ) := by
            have : 20 < p.term_years := by omega
            exact_mod_cast this
          constructor <;> linarith

end LoanComparisonService

/-! ## Claim C3 -/

/-- C3, counterexample: on a single 3-year plan (a term the generator itself
produces for "personal" loans) with `prefer_short_term`, the term sub-score
produced by `rank_loan_plans` is `135`, outside `[0, 100]` — the short-term
branch `max(0, 100 - (term - 10) * 5)` has no upper clamp. -/
theorem C3_counterexample :
    ((LoanComparisonService.rank_loan_plans
        [⟨"p", "P", 10000, 3, 7/100, 0, 0, 300, 800, 10800, 10⟩] {}
        (some ⟨true, false⟩)).map fun rp => rp.term_score) = [135]
      ∧ ¬((135 : ℚ) ≤ 100) := by
  constructor
  · norm_num [LoanComparisonService.rank_loan_plans, LoanComparisonService.sortDesc,
      LoanComparisonService.insertDesc, LoanComparisonService.scorePlan,
      LoanComparisonService.score_term]
  · norm_num

/-- C3, amended: every `RankedPlan` produced by `rank_loan_plans` has its
affordability, cost and payment sub-scores in `[0, 100]` for every input and
preference setting; the term sub-score also lies in `[0, 100]` whenever the
plan's term is between 10 and 53 years, but with `prefer_short_term` and a
term below 10 years it can exceed 100. -/
theorem C3_subscores_bounds
    (plans : List LoanPlanGeneratorService.LoanPlan) (fd : FinancialData)
    (preferences : Option LoanComparisonService.Preferences)
    (rp : LoanComparisonService.RankedPlan)
    (hrp : rp ∈ LoanComparisonService.rank_loan_plans plans fd preferences) :
    (0 ≤ rp.affordability_score ∧ rp.affordability_score ≤ 100)
      ∧ (0 ≤ rp.cost_score ∧ rp.cost_score ≤ 100)
      ∧ (0 ≤ rp.payment_score ∧ rp.payment_score ≤ 100)
      ∧ (10 ≤ rp.plan.term_years ∧ rp.plan.term_years ≤ 53 →
          0 ≤ rp.term_score ∧ rp.term_score ≤ 100) := by
  unfold LoanComparisonService.rank_loan_plans at hrp
  by_cases h : plans.isEmpty
  · rw [if_pos h] at hrp
    exact absurd hrp (List.not_mem_nil rp)
  · rw [if_neg h] at hrp
    rw [LoanComparisonService.mem_sortDesc] at hrp
    obtain ⟨p, hp, rfl⟩ := List.mem_map.1 hrp
    refine ⟨LoanComparisonService.score_affordability_bounds p,
      LoanComparisonService.score_cost_bounds p plans,
      LoanComparisonService.score_monthly_payment_bounds p plans,
      fun ht => LoanComparisonService.score_term_bounds p _ ht.1 ht.2⟩

/-- C3, witness: the bounds at a concrete one-plan ranking with a 20-year
term. -/
theorem C3_subscores_bounds_witness :
    (0 ≤ (LoanComparisonService.scorePlan
          [⟨"q", "Q", 80000, 20, 35/1000, 0, 0, 450, 28000, 108000, 15⟩] {}
          ⟨"q", "Q", 80000, 20, 35/1000, 0, 0, 450, 28000, 108000, 15⟩).affordability_score)
      ∧ (0 ≤ (LoanComparisonService.scorePlan
          [⟨"q", "Q", 80000, 20, 35/1000, 0, 0, 450, 28000, 108000, 15⟩] {}
          ⟨"q", "Q", 80000, 20, 35/1000, 0, 0, 450, 28000, 108000, 15⟩).term_score)
      ∧ (LoanComparisonService.scorePlan
          [⟨"q", "Q", 80000, 20, 35/1000, 0, 0, 450, 28000, 108000, 15⟩] {}
          ⟨"q", "Q", 80000, 20, 35/1000, 0, 0, 450, 28000, 108000, 15⟩).term_score ≤ 100 := by
  have h := C3_subscores_bounds
    [⟨"q", "Q", 80000, 20, 35/1000, 0, 0, 450, 28000, 108000, 15⟩] {} none
    (LoanComparisonService.scorePlan
      [⟨"q", "Q", 80000, 20, 35/1000, 0, 0, 450, 28000, 108000, 15⟩] {}
      ⟨"q", "Q", 80000, 20, 35/1000, 0, 0, 450, 28000, 108000, 15⟩)
    (List.mem_singleton.2 rfl)
  exact ⟨h.1.1, (h.2.2.2 (by decide)).1, (h.2.2.2 (by decide)).2⟩

/-! ### Plan-generation grid -/

namespace LoanPlanGeneratorService

theorem create_loan_plan_projs (total dp rate : ℚ) (t : ℤ) (income : ℚ)
    (h : 0 < total - total * dp) (ht : 0 < t) :
    ∃ p, create_loan_plan total dp rate t income = some p
      ∧ p.term_years = t ∧ p.down_payment_percentage = dp * 100 := by
  unfold create_loan_plan
  rw [if_neg (by push_neg; exact ⟨by linarith, ht⟩)]
  exact ⟨_, rfl, rfl, rfl⟩

theorem term_options_pos (loan_type : String) :
    ∀ t ∈ (TERM_OPTIONS loan_type).getD ((TERM_OPTIONS "unknown").getD []), 0 < t := by
  unfold TERM_OPTIONS
  by_cases h1 : loan_type = "mortgage"
  · rw [if_pos h1]
    decide
  · rw [if_neg h1]
    by_cases h2 : loan_type = "personal"
    · rw [if_pos h2]
      decide
    · rw [if_neg h2]
      by_cases h3 : loan_type = "auto"
      · rw [if_pos h3]
        decide
      · rw [if_neg h3]
        by_cases h4 : loan_type = "student"
        · rw [if_pos h4]
          decide
        · rw [if_neg h4]
          by_cases h5 : loan_type = "business"
          · rw [if_pos h5]
            decide
          · rw [if_neg h5]
            by_cases h6 : loan_type = "unknown"
            · rw [if_pos h6]
              decide
            · rw [if_neg h6]
              decide

/-- One term's block of the mortgage grid: the three down-payment variants. -/
theorem mortgage_term_block (amount rate income : ℚ) (t : ℤ)
    (h0 : 50000 < amount) (ht : 0 < t) :
    ((DOWN_PAYMENT_OPTIONS.filterMap fun dp =>
        create_loan_plan amount dp rate t income).map
      fun p => (p.term_years, p.down_payment_percentage)) = [(t, 10), (t, 15), (t, 20)] := by
  obtain ⟨pa, hpa, hta, hda⟩ :=
    create_loan_plan_projs amount (10/100) rate t income (by linarith) ht
  obtain ⟨pb, hpb, htb, hdb⟩ :=
    create_loan_plan_projs amount (15/100) rate t income (by linarith) ht
  obtain ⟨pc, hpc, htc, hdc⟩ :=
    create_loan_plan_projs amount (20/100) rate t income (by linarith) ht
  simp only [DOWN_PAYMENT_OPTIONS, List.filterMap_cons, hpa, hpb, hpc,
    List.filterMap_nil, List.map_cons, List.map_nil, hta, htb, htc, hda, hdb, hdc]
  norm_num

/-- The non-mortgage (or low-amount) branch: term projection. -/
theorem generate_terms_eq (amount : ℚ) (rate : ℚ) (income : ℚ) (h0 : 0 < amount) :
    ∀ l : List ℤ, (∀ t ∈ l, 0 < t) →
      ((l.flatMap fun term =>
          (create_loan_plan amount 0 rate term income).toList).map
        fun p => p.term_years) = l := by
  intro l
  induction l with
  | nil => intro _; rfl
  | cons t ts ih =>
    intro hpos
    have ht : 0 < t := hpos t (List.mem_cons_self t ts)
    obtain ⟨p, hp, hpt, -⟩ :=
      create_loan_plan_projs amount 0 rate t income (by linarith [mul_zero amount]) ht
    simp only [List.flatMap_cons, hp, Option.toList_some, List.singleton_append,
      List.map_cons, hpt, List.cons.injEq, true_and]
    exact ih fun u hu => hpos u (List.mem_cons_of_mem t hu)

/-- The non-mortgage (or low-amount) branch: all down payments are zero. -/
theorem generate_dp_zero (amount : ℚ) (rate : ℚ) (income : ℚ) (h0 : 0 < amount) :
    ∀ l : List ℤ, (∀ t ∈ l, 0 < t) →
      ∀ p ∈ (l.flatMap fun term =>
          (create_loan_plan amount 0 rate term income).toList),
        p.down_payment_percentage = 0 := by
  intro l
  induction l with
  | nil => intro _ p hp; exact absurd hp (List.not_mem_nil p)
  | cons t ts ih =>
    intro hpos p hp
    have ht : 0 < t := hpos t (List.mem_cons_self t ts)
    obtain ⟨q, hq, -, hqd⟩ :=
      create_loan_plan_projs amount 0 rate t income (by linarith [mul_zero amount]) ht
    rw [List.flatMap_cons, hq, Option.toList_some, List.singleton_append,
      List.mem_cons] at hp
    rcases hp with rfl | hp
    · rw [hqd]
      norm_num
    · exact ih (fun u hu => hpos u (List.mem_cons_of_mem t hu)) p hp

end LoanPlanGeneratorService

/-! ## Claim C7 -/

/-- C7, counterexample: for category "personal" with total amount `0`,
`generate_loan_options` produces no plans at all — not one plan per term of
the "personal" term list `[3, 5, 7]` — because `create_loan_plan` returns
`None` when the loan amount is non-positive. -/
theorem C7_counterexample :
    LoanPlanGeneratorService.generate_loan_options 0 "personal" 1000 none = []
      ∧ (LoanPlanGeneratorService.TERM_OPTIONS "personal").getD [] = [3, 5, 7] := by
  constructor
  · norm_num [LoanPlanGeneratorService.generate_loan_options,
      LoanPlanGeneratorService.TERM_OPTIONS, LoanPlanGeneratorService.DEFAULT_RATES,
      LoanPlanGeneratorService.create_loan_plan]
  · rfl

/-- C7, amended: for category "mortgage" with total amount above 50000,
`generate_loan_options` produces exactly one plan per (term, down-payment)
pair of the cross product `[15,20,25,30] × {10%,15%,20%}`; for every other
category — and for mortgages at or below 50000 — it produces, *provided the
total amount is positive*, exactly one plan per term of the category's term
list, each with down payment 0% (with a non-positive amount every plan is
dropped). -/
theorem C7_generation_grid :
    (∀ amount income : ℚ, ∀ rate : Option ℚ, 50000 < amount →
        ((LoanPlanGeneratorService.generate_loan_options amount "mortgage" income rate).map
            fun p => (p.term_years, p.down_payment_percentage))
          = [(15, 10), (15, 15), (15, 20), (20, 10), (20, 15), (20, 20),
              (25, 10), (25, 15), (25, 20), (30, 10), (30, 15), (30, 20)])
      ∧ (∀ (amount : ℚ) (loan_type : String) (income : ℚ) (rate : Option ℚ),
          0 < amount → ¬(loan_type = "mortgage" ∧ amount > 50000) →
          ((LoanPlanGeneratorService.generate_loan_options amount loan_type income rate).map
              fun p => p.term_years)
            = (LoanPlanGeneratorService.TERM_OPTIONS loan_type).getD
                ((LoanPlanGeneratorService.TERM_OPTIONS "unknown").getD [])
          ∧ ∀ p ∈ LoanPlanGeneratorService.generate_loan_options amount loan_type income rate,
              p.down_payment_percentage = 0) := by
  constructor
  · intro amount income rate h
    have hcond : ("mortgage" : String) = "mortgage" ∧ amount > 50000 := ⟨rfl, h⟩
    unfold LoanPlanGeneratorService.generate_loan_options
    rw [show (LoanPlanGeneratorService.TERM_OPTIONS "mortgage").getD
        ((LoanPlanGeneratorService.TERM_OPTIONS "unknown").getD []) = [15, 20, 25, 30] from rfl]
    simp only [List.flatMap_cons, List.flatMap_nil, List.append_nil, true_and,
      gt_iff_lt, if_pos h, List.map_append]
    rw [LoanPlanGeneratorService.mortgage_term_block amount _ income 15 h (by norm_num),
      LoanPlanGeneratorService.mortgage_term_block amount _ income 20 h (by norm_num),
      LoanPlanGeneratorService.mortgage_term_block amount _ income 25 h (by norm_num),
      LoanPlanGeneratorService.mortgage_term_block amount _ income 30 h (by norm_num)]
    rfl
  · intro amount loan_type income rate h0 hcond
    unfold LoanPlanGeneratorService.generate_loan_options
    simp only [if_neg hcond]
    exact ⟨LoanPlanGeneratorService.generate_terms_eq amount _ income h0 _
        (LoanPlanGeneratorService.term_options_pos loan_type),
      LoanPlanGeneratorService.generate_dp_zero amount _ income h0 _
        (LoanPlanGeneratorService.term_options_pos loan_type)⟩

/-- C7, witness: the grid at mortgage amount 100000 and the per-term list at
"personal" amount 10000. -/
theorem C7_generation_grid_witness :
    ((LoanPlanGeneratorService.generate_loan_options 100000 "mortgage" 3000 none).map
        fun p => (p.term_years, p.down_payment_percentage))
      = [(15, 10), (15, 15), (15, 20), (20, 10), (20, 15), (20, 20),
          (25, 10), (25, 15), (25, 20), (30, 10), (30, 15), (30, 20)]
    ∧ ((LoanPlanGeneratorService.generate_loan_options 10000 "personal" 2000 none).map
        fun p => p.term_years) = [3, 5, 7] := by
  constructor
  · exact C7_generation_grid.1 100000 3000 none (by norm_num)
  · rw [(C7_generation_grid.2 10000 "personal" 2000 none (by norm_num)
      (by simp)).1]
    rfl

end FinLit
